import Mathlib

/-
Verification development for the fraternity treasurer portal.

The definitions below are a shallow embedding of the RBAC helpers
(src/rbac.py), the data model (src/models.py) and the portal routes
(src/portal.py).  Database tables are lists of rows, SQLAlchemy
queries become list filters/finds, and each mutating route is a
function from state to (outcome, state).  Timestamps are naturals
passed explicitly (datetime.utcnow becomes a `now` parameter).
-/

namespace FratPortal

/-! ## Role name constants (src/rbac.py lines 12-52) -/

def ROLE_BROTHER : String := "brother"

def ROLE_CHAIR_BROTHERHOOD : String := "chair_brotherhood"

def ROLE_CHAIR_SOCIAL : String := "chair_social"

def ROLE_CHAIR_RECRUITMENT : String := "chair_recruitment"

def ROLE_TREASURER : String := "treasurer"

def ROLE_VICE_PRESIDENT : String := "vice_president"

def ROLE_PRESIDENT : String := "president"

def ROLE_ADMIN : String := "admin"

/-- EXECUTIVE_ROLES from src/rbac.py line 27 (a Python set; modelled as a
list, membership order is irrelevant to `any`). -/
def EXECUTIVE_ROLES : List String :=
  [ROLE_TREASURER, ROLE_VICE_PRESIDENT, ROLE_PRESIDENT, ROLE_ADMIN]

/-- COMMITTEE_ROLE_MAP from src/rbac.py lines 21-25: committee name (lower
case) to the chair role that manages it. -/
def COMMITTEE_ROLE_MAP (committeeName : String) : Option String :=
  if committeeName == "brotherhood" then some ROLE_CHAIR_BROTHERHOOD
  else if committeeName == "social" then some ROLE_CHAIR_SOCIAL
  else if committeeName == "recruitment" then some ROLE_CHAIR_RECRUITMENT
  else none

/-- CHAIR_PERMISSION_NAMES from src/rbac.py lines 34-43. -/
def CHAIR_PERMISSION_NAMES : List String :=
  [ "create_events",
    "edit_own_events",
    "view_own_events",
    "create_spending_plans",
    "edit_own_spending_plans",
    "view_own_spending_plans",
    "manage_committee_budget",
    "manage_committee_events" ]

/-- EXECUTIVE_PERMISSION_NAMES from src/rbac.py lines 45-52. -/
def EXECUTIVE_PERMISSION_NAMES : List String :=
  [ "manage_master_budget",
    "manage_committee_allocations",
    "manage_dues",
    "manage_roles",
    "manage_semesters",
    "manage_events" ]

/-! ## Data model rows (src/models.py) -/

/-- One row of the `user_roles` association table (src/models.py
lines 13-22). -/
structure AssignmentRow where
  user_id : Nat
  role_id : Nat
  granted_by_user_id : Option Nat
  granted_at : Nat
  revoked_at : Option Nat
deriving Repr, DecidableEq

/-- One row of the `roles` table (src/models.py lines 120-140). -/
structure RoleRow where
  id : Nat
  name : String
deriving Repr, DecidableEq

/-- One row of the `audit_log` table (src/models.py lines 232-242);
`details` models the details_json dict as an association list. -/
structure AuditEntry where
  actor_user_id : Nat
  action : String
  target_type : String
  target_id : Option Nat
  details : List (String × String)
  created_at : Nat
deriving Repr, DecidableEq

/-- The authenticated principal as seen by the rbac helpers: its row id
and the flask_login is_authenticated flag. -/
structure PortalUser where
  id : Nat
  is_authenticated : Bool
deriving Repr, DecidableEq

/-- The slice of database state the rbac module touches: the roles
table, the user_roles association table and the audit log. -/
structure RbacState where
  roles : List RoleRow
  assignments : List AssignmentRow
  auditLog : List AuditEntry
deriving Repr, DecidableEq

/-! ## RBAC read helpers -/

/-- User.get_active_roles (src/models.py lines 85-91): join the roles
table to the active (revoked_at IS NULL) assignment rows of the user. -/
def getActiveRoles (s : RbacState) (userId : Nat) : List RoleRow :=
  (s.assignments.filter
      (fun a => a.user_id == userId && a.revoked_at.isNone)).filterMap
    (fun a => s.roles.find? (fun r => r.id == a.role_id))

/-- User.has_role (src/models.py lines 81-83). -/
def userHasRoleDb (s : RbacState) (userId : Nat) (roleName : String) : Bool :=
  (getActiveRoles s userId).any (fun r => r.name == roleName)

/-- rbac.has_role (src/rbac.py lines 55-59): `None` users and
unauthenticated users have no roles. -/
def has_role (s : RbacState) (u : Option PortalUser) (roleName : String) : Bool :=
  match u with
  | none => false
  | some user => user.is_authenticated && userHasRoleDb s user.id roleName

/-- rbac.has_any_role (src/rbac.py lines 62-64). -/
def has_any_role (s : RbacState) (u : Option PortalUser) (roleNames : List String) : Bool :=
  roleNames.any (fun n => has_role s u n)

/-- rbac.has_permission (src/rbac.py lines 79-87). -/
def has_permission (s : RbacState) (u : Option PortalUser) (permissionName : String) : Bool :=
  if has_any_role s u EXECUTIVE_ROLES then true
  else if CHAIR_PERMISSION_NAMES.contains permissionName then
    has_any_role s u [ROLE_CHAIR_BROTHERHOOD, ROLE_CHAIR_SOCIAL, ROLE_CHAIR_RECRUITMENT]
  else if EXECUTIVE_PERMISSION_NAMES.contains permissionName then
    has_any_role s u [ROLE_VICE_PRESIDENT, ROLE_PRESIDENT, ROLE_TREASURER, ROLE_ADMIN]
  else false

/-- rbac.can_manage_committee (src/rbac.py lines 110-115). -/
def can_manage_committee (s : RbacState) (u : Option PortalUser) (committeeName : String) : Bool :=
  if has_any_role s u EXECUTIVE_ROLES then true
  else
    match COMMITTEE_ROLE_MAP committeeName with
    | none => false
    | some required => has_role s u required

/-! ## RBAC write operations -/

/-- Python truthiness of an optional integer: None and 0 are falsy
(`if actor_user_id:` in src/rbac.py lines 167 and 195). -/
def optNatTruthy : Option Nat → Bool
  | none => false
  | some n => n != 0

/-- rbac.log_action (src/rbac.py lines 131-141) as a row constructor. -/
def mkAuditEntry (actorId : Nat) (action targetType : String)
    (targetId : Option Nat) (details : List (String × String)) (now : Nat) : AuditEntry :=
  { actor_user_id := actorId
    action := action
    target_type := targetType
    target_id := targetId
    details := details
    created_at := now }

/-- Append an audit entry when the actor id is truthy, mirroring the
`if actor_user_id: log_action(...)` guard. -/
def appendAuditIfActor (s : RbacState) (actorId : Option Nat) (e : AuditEntry) : RbacState :=
  if optNatTruthy actorId then { s with auditLog := s.auditLog ++ [e] } else s

@[simp] theorem appendAuditIfActor_roles (s : RbacState) (a : Option Nat) (e : AuditEntry) :
    (appendAuditIfActor s a e).roles = s.roles := by
  unfold appendAuditIfActor; split <;> rfl

@[simp] theorem appendAuditIfActor_assignments (s : RbacState) (a : Option Nat) (e : AuditEntry) :
    (appendAuditIfActor s a e).assignments = s.assignments := by
  unfold appendAuditIfActor; split <;> rfl

/-- Does an active (revoked_at IS NULL) assignment row for this
user/role pair exist?  This is the SELECT in src/rbac.py lines 149-155. -/
def activeRowPred (userId roleId : Nat) (a : AssignmentRow) : Bool :=
  a.user_id == userId && a.role_id == roleId && a.revoked_at.isNone

/-- rbac.grant_role (src/rbac.py lines 144-176). -/
def grant_role (s : RbacState) (u : PortalUser) (roleName : String)
    (actorId : Option Nat) (now : Nat) : Bool × RbacState :=
  match s.roles.find? (fun r => r.name == roleName) with
  | none => (false, s)
  | some role =>
    if s.assignments.any (activeRowPred u.id role.id) then
      (false, s)
    else
      let newRow : AssignmentRow :=
        { user_id := u.id
          role_id := role.id
          granted_by_user_id := actorId
          granted_at := now
          revoked_at := none }
      let s1 : RbacState := { s with assignments := s.assignments ++ [newRow] }
      let s2 := appendAuditIfActor s1 actorId
        (mkAuditEntry (actorId.getD 0) "ROLE_GRANTED" "user" (some u.id)
          [("role", roleName)] now)
      (true, s2)

/-- rbac.revoke_role (src/rbac.py lines 179-204): the UPDATE sets
revoked_at on every matching active row; rowcount 0 means failure. -/
def revoke_role (s : RbacState) (u : PortalUser) (roleName : String)
    (actorId : Option Nat) (now : Nat) : Bool × RbacState :=
  match s.roles.find? (fun r => r.name == roleName) with
  | none => (false, s)
  | some role =>
    let matched := (s.assignments.filter (activeRowPred u.id role.id)).length
    if matched == 0 then (false, s)
    else
      let s1 : RbacState :=
        { s with
          assignments := s.assignments.map (fun a =>
            if activeRowPred u.id role.id a then { a with revoked_at := some now } else a) }
      let s2 := appendAuditIfActor s1 actorId
        (mkAuditEntry (actorId.getD 0) "ROLE_REVOKED" "user" (some u.id)
          [("role", roleName)] now)
      (true, s2)

/-! ## The `uq_user_roles_active` unique constraint

src/models.py line 21 declares
`UniqueConstraint('user_id', 'role_id', 'revoked_at', name='uq_user_roles_active')`.
Under SQL semantics (the store is SQLite, src/database.py; PostgreSQL and
MySQL agree) two rows violate a unique constraint only when every
constrained column is pairwise equal and non-NULL: a NULL is distinct
from every value, including another NULL. -/

/-- Two `user_roles` rows collide under `uq_user_roles_active`. -/
def rowsConflict (a b : AssignmentRow) : Bool :=
  a.user_id == b.user_id && a.role_id == b.role_id &&
    (match a.revoked_at, b.revoked_at with
     | some x, some y => x == y
     | _, _ => false)

/-- The whole table satisfies the declared unique constraint: no two
distinct rows collide. -/
def uqUserRolesActiveHolds : List AssignmentRow → Bool
  | [] => true
  | a :: rest => rest.all (fun b => !(rowsConflict a b)) && uqUserRolesActiveHolds rest

/-- The active (revoked_at IS NULL) rows of a user/role pair. -/
def activeRowsFor (rows : List AssignmentRow) (userId roleId : Nat) : List AssignmentRow :=
  rows.filter (activeRowPred userId roleId)

/-- Python str.lower as used on the ASCII committee and season names
(e.g. `committee.name.lower()`), modelled as a per-character lowercase
map so that it is fully executable. -/
def pyLower (s : String) : String := String.mk (s.data.map Char.toLower)

/-! ## Portal data model rows (src/models.py) -/

/-- One row of the `semesters` table (src/models.py lines 142-164),
restricted to the columns the portal routes touch. -/
structure SemesterRow where
  id : String
  name : Option String
  year : Int
  season : String
  is_current : Bool
deriving Repr, DecidableEq

/-- One row of the `events` table (src/models.py lines 467-499),
restricted to the columns the rollover route touches. -/
structure EventRow where
  id : Nat
  semester_id : String
  is_archived : Bool
  is_deleted : Bool
deriving Repr, DecidableEq

/-- One row of the `committees` table (src/models.py lines 245-251). -/
structure CommitteeRow where
  id : Nat
  name : String
deriving Repr, DecidableEq

/-- One row of `committee_budget_allocations` (src/models.py
lines 254-264). -/
structure AllocationRow where
  id : Nat
  semester_id : String
  committee_id : Nat
  allocated_cents : Int
  allocated_at : Nat
deriving Repr, DecidableEq

/-- One row of `committee_transactions` (src/models.py lines 267-285). -/
structure CommitteeTxRow where
  id : Nat
  semester_id : String
  committee_id : Nat
  amount_cents : Int
  created_by_user_id : Nat
  created_at : Nat
  is_deleted : Bool
  deleted_by_user_id : Option Nat
  deleted_at : Option Nat
deriving Repr, DecidableEq

/-- One row of `dues_charges` (src/models.py lines 303-318). -/
structure DuesChargeRow where
  id : Nat
  semester_id : String
  user_id : Nat
  charge_cents : Int
  is_deleted : Bool
deriving Repr, DecidableEq

/-- One row of `dues_payments` (src/models.py lines 321-335). -/
structure DuesPaymentRow where
  id : Nat
  user_id : Nat
  amount_cents : Int
  is_deleted : Bool
deriving Repr, DecidableEq

/-- The slice of database state the portal routes touch. -/
structure PortalState where
  semesters : List SemesterRow
  events : List EventRow
  committees : List CommitteeRow
  allocations : List AllocationRow
  committee_txs : List CommitteeTxRow
  dues_charges : List DuesChargeRow
  dues_payments : List DuesPaymentRow
  auditLog : List AuditEntry
deriving Repr, DecidableEq

/-- portal.get_current_semester (src/portal.py lines 50-51):
`Semester.query.filter_by(is_current=True).first()`. -/
def get_current_semester (ps : PortalState) : Option SemesterRow :=
  ps.semesters.find? (fun s => s.is_current)

/-! ## Dues balance (src/portal.py lines 162-199, route `dues`) -/

/-- The non-deleted charges of a user (src/portal.py line 166). -/
def chargesOf (ps : PortalState) (userId : Nat) : List DuesChargeRow :=
  ps.dues_charges.filter (fun c => c.user_id == userId && c.is_deleted == false)

/-- The non-deleted payments of a user (src/portal.py line 167). -/
def paymentsOf (ps : PortalState) (userId : Nat) : List DuesPaymentRow :=
  ps.dues_payments.filter (fun p => p.user_id == userId && p.is_deleted == false)

/-- balance_cents as computed in the dues route (src/portal.py
lines 176-178): total charges minus total payments. -/
def dues_balance_cents (ps : PortalState) (userId : Nat) : Int :=
  let total_charges := ((chargesOf ps userId).map (fun c => c.charge_cents)).sum
  let total_payments := ((paymentsOf ps userId).map (fun p => p.amount_cents)).sum
  total_charges - total_payments

/-- Written from the spec sentence (refinement reference, not from the
code): C, the sum of the user's non-deleted charge amounts in cents. -/
def specChargeTotal (ps : PortalState) (userId : Nat) : Int :=
  (ps.dues_charges.map
    (fun c => if c.user_id = userId ∧ c.is_deleted = false then c.charge_cents else 0)).sum

/-- Written from the spec sentence (refinement reference, not from the
code): P, the sum of the user's non-deleted payment amounts in cents. -/
def specPaymentTotal (ps : PortalState) (userId : Nat) : Int :=
  (ps.dues_payments.map
    (fun p => if p.user_id = userId ∧ p.is_deleted = false then p.amount_cents else 0)).sum

/-! ## Committee remaining balance (src/portal.py lines 202-232) -/

/-- The allocation rows for a (semester, committee) pair
(src/portal.py lines 215-217 before the ordering). -/
def allocationsFor (ps : PortalState) (semesterId : String) (committeeId : Nat) :
    List AllocationRow :=
  ps.allocations.filter (fun a => a.semester_id == semesterId && a.committee_id == committeeId)

/-- `order_by(allocated_at.desc()).first()`: the first row, in list
order, whose allocated_at is maximal. -/
def latestByAllocatedAt : List AllocationRow → Option AllocationRow
  | [] => none
  | a :: rest =>
    match latestByAllocatedAt rest with
    | none => some a
    | some b => if b.allocated_at > a.allocated_at then some b else some a

/-- The non-deleted transactions for a (semester, committee) pair
(src/portal.py lines 218-220; the created_at ordering of the query does
not affect the sum). -/
def transactionsFor (ps : PortalState) (semesterId : String) (committeeId : Nat) :
    List CommitteeTxRow :=
  ps.committee_txs.filter
    (fun t => t.semester_id == semesterId && t.committee_id == committeeId && t.is_deleted == false)

/-- remaining_cents as computed in the committee route (src/portal.py
lines 221-223): latest allocation (0 when none) plus the sum of the
non-deleted transaction amounts. -/
def committeeRemainingCents (ps : PortalState) (semesterId : String) (committeeId : Nat) : Int :=
  let allocation := latestByAllocatedAt (allocationsFor ps semesterId committeeId)
  let total_spend := ((transactionsFor ps semesterId committeeId).map (fun t => t.amount_cents)).sum
  let allocation_cents := match allocation with
    | some a => a.allocated_cents
    | none => 0
  allocation_cents + total_spend

/-! ## Committee transactions (src/portal.py lines 235-288) -/

inductive CreateTxOutcome where
  | forbidden
  | noSemester
  | committeeMissing
  | created
deriving Repr, DecidableEq

/-- A fresh primary key for an inserted transaction row (autoincrement;
its exact value is irrelevant to every claim). -/
def freshTxId (txs : List CommitteeTxRow) : Nat :=
  (txs.foldl (fun acc t => max acc t.id) 0) + 1

/-- portal.create_committee_transaction (src/portal.py lines 235-267).
`submittedAmount` is the parsed form integer; lines 250-252 take its
absolute value and apply the sign dictated by `direction`
(`request.form.get("direction", "spend")`). -/
def create_committee_transaction (rb : RbacState) (ps : PortalState) (u : PortalUser)
    (committeeName : String) (submittedAmount : Int) (direction : Option String)
    (now : Nat) : CreateTxOutcome × PortalState :=
  if !(can_manage_committee rb (some u) (pyLower committeeName)) then (.forbidden, ps)
  else
    match get_current_semester ps with
    | none => (.noSemester, ps)
    | some sem =>
      match ps.committees.find? (fun c => c.name == committeeName) with
      | none => (.committeeMissing, ps)
      | some crec =>
        let amount : Int := (submittedAmount.natAbs : Int)
        let dir := direction.getD "spend"
        let amount_cents := if dir == "spend" then -amount else amount
        let tx : CommitteeTxRow :=
          { id := freshTxId ps.committee_txs
            semester_id := sem.id
            committee_id := crec.id
            amount_cents := amount_cents
            created_by_user_id := u.id
            created_at := now
            is_deleted := false
            deleted_by_user_id := none
            deleted_at := none }
        (.created,
          { ps with
            committee_txs := ps.committee_txs ++ [tx]
            auditLog := ps.auditLog ++
              [mkAuditEntry u.id "TX_CREATED" "committee_transaction" none
                [("committee", committeeName)] now] })

inductive DeleteTxOutcome where
  | notFound
  | forbidden
  | deleted
deriving Repr, DecidableEq

/-- portal.delete_committee_transaction (src/portal.py lines 270-288). -/
def delete_committee_transaction (rb : RbacState) (ps : PortalState) (u : PortalUser)
    (txId : Nat) (now : Nat) : DeleteTxOutcome × PortalState :=
  match ps.committee_txs.find? (fun t => t.id == txId) with
  | none => (.notFound, ps)
  | some tx =>
    match ps.committees.find? (fun c => c.id == tx.committee_id) with
    | none => (.forbidden, ps)
    | some crec =>
      if !(can_manage_committee rb (some u) (pyLower crec.name)) then (.forbidden, ps)
      else if !(has_any_role rb (some u) [ROLE_TREASURER, ROLE_VICE_PRESIDENT, ROLE_PRESIDENT])
          && !(tx.created_by_user_id == u.id) then (.forbidden, ps)
      else
        (.deleted,
          { ps with
            committee_txs := ps.committee_txs.map (fun t =>
              if t.id == txId then
                { t with is_deleted := true, deleted_by_user_id := some u.id,
                         deleted_at := some now }
              else t)
            auditLog := ps.auditLog ++
              [mkAuditEntry u.id "TX_DELETED" "committee_transaction" (some tx.id) [] now] })

/-! ## Semester rollover (src/portal.py lines 431-464) -/

inductive RolloverOutcome where
  | forbidden
  | rejected
  | completed
deriving Repr, DecidableEq

/-- The id of the inserted semester (src/portal.py line 445,
the f-string season.lower()_year). -/
def newSemesterId (season : String) (year : Int) : String :=
  pyLower season ++ "_" ++ toString year

/-- portal.semester_rollover (src/portal.py lines 431-464): requires a
vice_president/president actor, then the literal confirmation string
"ROLL_OVER"; clears the current semester flag, archives that semester's
events, inserts the new current semester and logs the action. -/
def semester_rollover (rb : RbacState) (ps : PortalState) (u : PortalUser)
    (confirm : Option String) (nameField : Option String) (season : String) (year : Int)
    (now : Nat) : RolloverOutcome × PortalState :=
  if !(has_any_role rb (some u) [ROLE_VICE_PRESIDENT, ROLE_PRESIDENT]) then (.forbidden, ps)
  else if !(confirm == some "ROLL_OVER") then (.rejected, ps)
  else
    let ps1 : PortalState :=
      match get_current_semester ps with
      | none => ps
      | some cur =>
        { ps with
          semesters := ps.semesters.map (fun s =>
            if s.id == cur.id then { s with is_current := false } else s)
          events := ps.events.map (fun e =>
            if e.semester_id == cur.id then { e with is_archived := true } else e) }
    let newRow : SemesterRow :=
      { id := newSemesterId season year
        name := nameField
        year := year
        season := season
        is_current := true }
    (.completed,
      { ps1 with
        semesters := ps1.semesters ++ [newRow]
        auditLog := ps1.auditLog ++
          [mkAuditEntry u.id "SEMESTER_ROLLOVER" "semester" none
            ((nameField.map (fun n => [("name", n)])).getD []) now] })

/-- The number of semesters flagged current. -/
def currentCount (ps : PortalState) : Nat :=
  (ps.semesters.filter (fun s => s.is_current)).length

/-! ## Concrete example world used by witnesses and scenarios -/

/-- The eight default roles (src/models.py DEFAULT_ROLES, ids arbitrary). -/
def exRoles : List RoleRow :=
  [ { id := 1, name := "brother" },
    { id := 2, name := "chair_brotherhood" },
    { id := 3, name := "chair_social" },
    { id := 4, name := "chair_recruitment" },
    { id := 5, name := "treasurer" },
    { id := 6, name := "vice_president" },
    { id := 7, name := "president" },
    { id := 8, name := "admin" } ]

def exTreasurer : PortalUser := { id := 100, is_authenticated := true }

def exBrother : PortalUser := { id := 101, is_authenticated := true }

def exMember : PortalUser := { id := 10, is_authenticated := true }

/-- Active treasurer assignment for user 100. -/
def exRow0 : AssignmentRow :=
  { user_id := 100, role_id := 5, granted_by_user_id := some 7, granted_at := 1,
    revoked_at := none }

/-- Active brother assignment for user 101. -/
def exRow1 : AssignmentRow :=
  { user_id := 101, role_id := 1, granted_by_user_id := some 7, granted_at := 1,
    revoked_at := none }

/-- rbac state: user 100 holds treasurer, user 101 holds brother. -/
def exRb : RbacState :=
  { roles := exRoles
    assignments := [exRow0, exRow1]
    auditLog := [] }

/-- rbac state with no assignments at all. -/
def c4Rb : RbacState := { roles := exRoles, assignments := [], auditLog := [] }

def exVp : PortalUser := { id := 102, is_authenticated := true }

/-- rbac state: user 102 holds vice_president. -/
def exVpRb : RbacState :=
  { roles := exRoles
    assignments :=
      [ { user_id := 102, role_id := 6, granted_by_user_id := some 7, granted_at := 1,
          revoked_at := none } ]
    auditLog := [] }

def exSemester : SemesterRow :=
  { id := "fall_2024", name := some "Fall 2024", year := 2024, season := "Fall",
    is_current := true }

def exSocial : CommitteeRow := { id := 1, name := "Social" }

def exTx : CommitteeTxRow :=
  { id := 7, semester_id := "fall_2024", committee_id := 1, amount_cents := -500,
    created_by_user_id := 100, created_at := 20, is_deleted := false,
    deleted_by_user_id := none, deleted_at := none }

def exPs : PortalState :=
  { semesters := [exSemester]
    events := [ { id := 1, semester_id := "fall_2024", is_archived := false,
                  is_deleted := false } ]
    committees := [exSocial]
    allocations := [ { id := 1, semester_id := "fall_2024", committee_id := 1,
                       allocated_cents := 2000, allocated_at := 10 } ]
    committee_txs := [exTx]
    dues_charges := []
    dues_payments := []
    auditLog := [] }

/-! ## Shared helper lemmas -/

theorem find_key_of_nodup {α β : Type} [BEq β] [LawfulBEq β] (f : α → β) :
    ∀ (l : List α) (a : α), (l.map f).Nodup → a ∈ l →
      l.find? (fun b => f b == f a) = some a := by
  intro l
  induction l with
  | nil => intro a _ hmem; cases hmem
  | cons b t ih =>
    intro a hnd hmem
    rw [List.map_cons, List.nodup_cons] at hnd
    rcases List.mem_cons.mp hmem with rfl | hat
    · simp [List.find?_cons]
    · by_cases hba : (f b == f a) = true
      · exfalso
        exact hnd.1 (eq_of_beq hba ▸ List.mem_map_of_mem f hat)
      · have hb2 : (f b == f a) = false := by simp [hba]
        rw [List.find?_cons, hb2]
        exact ih a hnd.2 hat

theorem map_if_id {α : Type} (p : α → Bool) (g : α → α) :
    ∀ l : List α, (∀ x ∈ l, p x = false) →
      l.map (fun x => if p x then g x else x) = l := by
  intro l
  induction l with
  | nil => intro _; rfl
  | cons a t ih =>
    intro h
    have ha := h a (List.mem_cons_self a t)
    simp [List.map_cons, ha, ih (fun x hx => h x (List.mem_cons_of_mem a hx))]

theorem latestByAllocatedAt_mem :
    ∀ (l : List AllocationRow) (b : AllocationRow),
      latestByAllocatedAt l = some b → b ∈ l := by
  intro l
  induction l with
  | nil => intro b h; cases h
  | cons a t ih =>
    intro b h
    rw [latestByAllocatedAt] at h
    cases ht : latestByAllocatedAt t with
    | none => rw [ht] at h; exact (Option.some_inj.mp h) ▸ List.mem_cons_self a t
    | some c =>
      rw [ht] at h
      have h2 : (if c.allocated_at > a.allocated_at then some c else some a) = some b := h
      by_cases hgt : c.allocated_at > a.allocated_at
      · rw [if_pos hgt] at h2
        exact List.mem_cons_of_mem a (ih b ((Option.some_inj.mp h2) ▸ ht))
      · rw [if_neg hgt] at h2
        exact (Option.some_inj.mp h2) ▸ List.mem_cons_self a t

theorem latestByAllocatedAt_of_max :
    ∀ (l : List AllocationRow) (amax : AllocationRow), amax ∈ l →
      (∀ b ∈ l, b = amax ∨ b.allocated_at < amax.allocated_at) →
      latestByAllocatedAt l = some amax := by
  intro l
  induction l with
  | nil => intro amax hmem; cases hmem
  | cons a t ih =>
    intro amax hmem hmax
    rcases List.mem_cons.mp hmem with heq | hat
    · subst heq
      rw [latestByAllocatedAt]
      cases ht : latestByAllocatedAt t with
      | none => rfl
      | some c =>
        show (if c.allocated_at > amax.allocated_at then some c else some amax) = some amax
        have hc : c = amax ∨ c.allocated_at < amax.allocated_at :=
          hmax c (List.mem_cons_of_mem amax (latestByAllocatedAt_mem t c ht))
        have hng : ¬ c.allocated_at > amax.allocated_at := by
          rcases hc with rfl | hlt
          · exact lt_irrefl _
          · exact fun hgt => absurd hlt (not_lt_of_gt hgt)
        rw [if_neg hng]
    · have hrec : latestByAllocatedAt t = some amax :=
        ih amax hat (fun b hb => hmax b (List.mem_cons_of_mem a hb))
      rw [latestByAllocatedAt, hrec]
      show (if amax.allocated_at > a.allocated_at then some amax else some a) = some amax
      rcases hmax a (List.mem_cons_self a t) with heq | hlt
      · subst heq
        rw [if_neg (lt_irrefl _)]
      · rw [if_pos hlt]

theorem has_any_role_perm_exec (s : RbacState) (u : Option PortalUser) :
    has_any_role s u [ROLE_VICE_PRESIDENT, ROLE_PRESIDENT, ROLE_TREASURER, ROLE_ADMIN]
      = has_any_role s u EXECUTIVE_ROLES := by
  simp only [has_any_role, EXECUTIVE_ROLES, List.any_cons, List.any_nil]
  cases has_role s u ROLE_TREASURER <;> cases has_role s u ROLE_VICE_PRESIDENT <;>
    cases has_role s u ROLE_PRESIDENT <;> cases has_role s u ROLE_ADMIN <;> rfl

theorem has_any_role_three_imp_exec (s : RbacState) (u : Option PortalUser)
    (h : has_any_role s u [ROLE_TREASURER, ROLE_VICE_PRESIDENT, ROLE_PRESIDENT] = true) :
    has_any_role s u EXECUTIVE_ROLES = true := by
  simp only [has_any_role, EXECUTIVE_ROLES, List.any_cons, List.any_nil,
    Bool.or_eq_true] at h ⊢
  tauto

theorem sum_map_filter_eq {α : Type} (pb : α → Bool) (P : α → Prop) [DecidablePred P]
    (hpb : ∀ x, pb x = true ↔ P x) (f : α → Int) :
    ∀ l : List α, ((l.filter pb).map f).sum = (l.map (fun x => if P x then f x else 0)).sum := by
  intro l
  induction l with
  | nil => rfl
  | cons a t ih =>
    cases hpa : pb a with
    | true =>
      have hPa : P a := (hpb a).mp hpa
      simp [List.filter_cons, hpa, hPa, List.sum_cons, ih]
    | false =>
      have hPa : ¬ P a := fun hp => by rw [(hpb a).mpr hp] at hpa; cases hpa
      simp [List.filter_cons, hpa, hPa, List.sum_cons, ih]

/-! ## Claim C1 (code_bug evidence)

The spec requires the at-most-one-active-assignment invariant to be
enforced by a uniqueness constraint on active assignment per
(user, role).  src/models.py line 21 declares
`UniqueConstraint('user_id', 'role_id', 'revoked_at')` — but the
nullable revoked_at column participates in the constraint, and under
SQL semantics NULLs are pairwise distinct, so two rows that are both
active (revoked_at IS NULL) for the same (user, role) never collide.
The constraint therefore admits exactly the state it was named to
forbid; only grant_role's application-level SELECT check (a
check-then-insert race) stands between concurrent writers. -/

/-- A `user_roles` table holding two simultaneously active assignments
of role 5 to user 1. -/
def dupActiveRows : List AssignmentRow :=
  [ { user_id := 1, role_id := 5, granted_by_user_id := some 7, granted_at := 10,
      revoked_at := none },
    { user_id := 1, role_id := 5, granted_by_user_id := some 7, granted_at := 11,
      revoked_at := none } ]

/-- C1: the table with two active rows for the same (user, role) pair
satisfies the declared `uq_user_roles_active` constraint, i.e. the
constraint does not enforce the at-most-one-active invariant the spec
(and the constraint's own name) demand. -/
theorem uq_user_roles_active_admits_duplicate :
    uqUserRolesActiveHolds dupActiveRows = true ∧
    (activeRowsFor dupActiveRows 1 5).length = 2 := by
  decide

/-! ## Claim C10: transaction sign determined solely by direction -/

/-- C10: whenever create_committee_transaction inserts a row, the
stored amount is -|a| for direction "spend" and +|a| for any other
direction, regardless of the sign of the submitted amount. -/
theorem create_committee_transaction_sign (rb : RbacState) (ps : PortalState)
    (u : PortalUser) (cname : String) (a : Int) (d : String) (now : Nat)
    (h : (create_committee_transaction rb ps u cname a (some d) now).fst
          = CreateTxOutcome.created) :
    ∃ tx : CommitteeTxRow,
      (create_committee_transaction rb ps u cname a (some d) now).snd.committee_txs
        = ps.committee_txs ++ [tx] ∧
      tx.amount_cents = (if d = "spend" then -((a.natAbs : Int)) else (a.natAbs : Int)) ∧
      (d = "spend" → tx.amount_cents ≤ 0) ∧
      (d ≠ "spend" → 0 ≤ tx.amount_cents) := by
  unfold create_committee_transaction at h ⊢
  cases hcm : can_manage_committee rb (some u) (pyLower cname) with
  | false => simp [hcm] at h
  | true =>
    simp only [hcm, Bool.not_true, Bool.false_eq_true, if_false] at h
    simp only [Bool.not_true, Bool.false_eq_true, if_false]
    cases hsem : get_current_semester ps with
    | none => simp [hsem] at h
    | some sem =>
      simp only [hsem] at h
      cases hcr : ps.committees.find? (fun c => c.name == cname) with
      | none => simp [hcr] at h
      | some crec =>
        refine ⟨_, rfl, ?_, ?_, ?_⟩
        · by_cases hd : d = "spend" <;> simp [Option.getD, hd, beq_iff_eq]
        · intro hd
          subst hd
          simp only [Option.getD, beq_self_eq_true, if_true]
          exact neg_nonpos.mpr (Int.natCast_nonneg _)
        · intro hd
          have hb : (d == "spend") = false := beq_eq_false_iff_ne.mpr hd
          simp only [Option.getD, hb, Bool.false_eq_true, if_false]
          exact Int.natCast_nonneg _

/-- Witness for C10 at a concrete input: the treasurer records a
"spend" of submitted amount -500 for the Social committee; the stored
amount is -500. -/
theorem create_committee_transaction_sign_witness :
    ∃ tx : CommitteeTxRow,
      (create_committee_transaction exRb exPs exTreasurer "Social" (-500) (some "spend")
          50).snd.committee_txs = exPs.committee_txs ++ [tx] ∧
      tx.amount_cents
        = (if "spend" = "spend" then -((Int.natAbs (-500) : Int)) else (Int.natAbs (-500) : Int)) ∧
      ("spend" = "spend" → tx.amount_cents ≤ 0) ∧
      ("spend" ≠ "spend" → 0 ≤ tx.amount_cents) :=
  create_committee_transaction_sign exRb exPs exTreasurer "Social" (-500) "spend" 50 (by decide)

/-! ## Claim C8: rollover confirmation mismatch mutates nothing -/

/-- C8: when the confirmation token is not the literal "ROLL_OVER",
semester_rollover leaves the whole portal state unchanged (no semester
flag, no event archive, no insert, no audit entry) and does not
complete. -/
theorem semester_rollover_mismatch (rb : RbacState) (ps : PortalState) (u : PortalUser)
    (c nm : Option String) (season : String) (year : Int) (now : Nat)
    (h : c ≠ some "ROLL_OVER") :
    (semester_rollover rb ps u c nm season year now).snd = ps ∧
    (semester_rollover rb ps u c nm season year now).fst ≠ RolloverOutcome.completed := by
  unfold semester_rollover
  cases hau : has_any_role rb (some u) [ROLE_VICE_PRESIDENT, ROLE_PRESIDENT] with
  | false => simp
  | true =>
    have hc : (c == some "ROLL_OVER") = false := beq_eq_false_iff_ne.mpr h
    simp [hc]

/-- Witness for C8: a rollover attempt with token "WRONG" leaves the
example state untouched. -/
theorem semester_rollover_mismatch_witness :
    (semester_rollover exRb exPs exTreasurer (some "WRONG") (some "Spring 2025") "Spring"
        2025 99).snd = exPs ∧
    (semester_rollover exRb exPs exTreasurer (some "WRONG") (some "Spring 2025") "Spring"
        2025 99).fst ≠ RolloverOutcome.completed :=
  semester_rollover_mismatch exRb exPs exTreasurer (some "WRONG") (some "Spring 2025")
    "Spring" 2025 99 (by decide)

/-! ## Claim C5: dues balance is exactly C minus P -/

/-- C5: the dues route's balance equals the spec formula C − P, the sum
of the user's non-deleted charge cents minus the sum of their
non-deleted payment cents; in particular C = P = 0 gives balance 0. -/
theorem dues_balance_matches_spec (ps : PortalState) (uid : Nat) :
    dues_balance_cents ps uid = specChargeTotal ps uid - specPaymentTotal ps uid ∧
    (specChargeTotal ps uid = 0 → specPaymentTotal ps uid = 0 →
      dues_balance_cents ps uid = 0) := by
  have hchg : ((chargesOf ps uid).map (fun c => c.charge_cents)).sum = specChargeTotal ps uid := by
    unfold chargesOf specChargeTotal
    exact sum_map_filter_eq _ _ (fun c => by simp [Bool.and_eq_true, beq_iff_eq]) _ _
  have hpay : ((paymentsOf ps uid).map (fun p => p.amount_cents)).sum = specPaymentTotal ps uid := by
    unfold paymentsOf specPaymentTotal
    exact sum_map_filter_eq _ _ (fun p => by simp [Bool.and_eq_true, beq_iff_eq]) _ _
  have hmain : dues_balance_cents ps uid = specChargeTotal ps uid - specPaymentTotal ps uid := by
    unfold dues_balance_cents
    rw [hchg, hpay]
  exact ⟨hmain, fun h1 h2 => by rw [hmain, h1, h2]; simp⟩

/-- Witness for C5 with C = P = 0: the example state has no dues rows
for user 10, and the balance evaluates to 0. -/
theorem dues_balance_matches_spec_witness : dues_balance_cents exPs 10 = 0 :=
  (dues_balance_matches_spec exPs 10).2 (by decide) (by decide)

/-! ## Claim C2: grant_role success implies has_role; regrant fails -/

theorem filter_nil_all_false {α : Type} (p : α → Bool) :
    ∀ l : List α, l.filter p = [] → ∀ x ∈ l, p x = false := by
  intro l
  induction l with
  | nil => intro _ x hx; cases hx
  | cons a t ih =>
    intro h x hx
    cases hpa : p a with
    | true => rw [List.filter_cons, hpa] at h; simp at h
    | false =>
      rw [List.filter_cons, hpa] at h
      simp only [Bool.false_eq_true, if_false] at h
      rcases List.mem_cons.mp hx with rfl | hxt
      · exact hpa
      · exact ih h x hxt

/-- C2: when grant_role returns true, the user then holds the role via
User.has_role, and an immediately repeated grant_role for the same
(user, role) returns false: no duplicate active assignment is created.
Role ids are unique (the roles table's primary key). -/
theorem grant_role_then_has_role (s : RbacState) (u : PortalUser) (rn : String)
    (actor actor2 : Option Nat) (t1 t2 : Nat)
    (hnd : (s.roles.map (fun r => r.id)).Nodup)
    (hok : (grant_role s u rn actor t1).fst = true) :
    userHasRoleDb (grant_role s u rn actor t1).snd u.id rn = true ∧
    (grant_role (grant_role s u rn actor t1).snd u rn actor2 t2).fst = false := by
  obtain ⟨role, hf, hex⟩ : ∃ role, s.roles.find? (fun r => r.name == rn) = some role ∧
      s.assignments.any (activeRowPred u.id role.id) = false := by
    unfold grant_role at hok
    cases hf : s.roles.find? (fun r => r.name == rn) with
    | none => simp [hf] at hok
    | some role =>
      simp only [hf] at hok
      cases hex : s.assignments.any (activeRowPred u.id role.id) with
      | true => simp [hex] at hok
      | false => exact ⟨role, rfl, hex⟩
  have hrmem : role ∈ s.roles := List.mem_of_find?_eq_some hf
  have hrname := List.find?_some hf
  have hsnd : (grant_role s u rn actor t1).snd.assignments
      = s.assignments ++
        [{ user_id := u.id, role_id := role.id, granted_by_user_id := actor,
           granted_at := t1, revoked_at := none }] := by
    simp [grant_role, hf, hex]
  have hroles : (grant_role s u rn actor t1).snd.roles = s.roles := by
    simp [grant_role, hf, hex]
  have hany : ((grant_role s u rn actor t1).snd.assignments).any
      (activeRowPred u.id role.id) = true := by
    rw [hsnd]
    apply List.any_eq_true.mpr
    refine ⟨{ user_id := u.id, role_id := role.id, granted_by_user_id := actor,
              granted_at := t1, revoked_at := none },
            List.mem_append_right _ (by simp), ?_⟩
    simp [activeRowPred]
  set s2 := (grant_role s u rn actor t1).snd with hs2
  constructor
  · unfold userHasRoleDb
    apply List.any_eq_true.mpr
    refine ⟨role, ?_, hrname⟩
    unfold getActiveRoles
    rw [hsnd, hroles]
    apply List.mem_filterMap.mpr
    refine ⟨{ user_id := u.id, role_id := role.id, granted_by_user_id := actor,
              granted_at := t1, revoked_at := none }, ?_, ?_⟩
    · apply List.mem_filter.mpr
      exact ⟨List.mem_append_right _ (by simp), by simp⟩
    · exact find_key_of_nodup (fun r : RoleRow => r.id) s.roles role hnd hrmem
  · simp only [grant_role, hroles, hf, hany, if_true]

/-- Witness for C2: granting chair_social to user 10 in the empty-assignment
state succeeds, has_role holds afterwards, and regranting fails. -/
theorem grant_role_then_has_role_witness :
    userHasRoleDb (grant_role c4Rb exMember "chair_social" (some 6) 5).snd exMember.id
        "chair_social" = true ∧
    (grant_role (grant_role c4Rb exMember "chair_social" (some 6) 5).snd exMember
        "chair_social" (some 6) 6).fst = false :=
  grant_role_then_has_role c4Rb exMember "chair_social" (some 6) (some 6) 5 6
    (by decide) (by decide)

/-! ## Claim C3: revoke_role semantics -/

/-- C3: for a (user, role) pair with exactly one active assignment row,
revoke_role succeeds, sets revoked_at on exactly that row (all other
rows untouched), and a second call returns false; it also returns false
(with no state change) when no active assignment exists or the role
name does not exist.  The one-active-row shape is given by the list
decomposition hypotheses. -/
theorem revoke_role_spec (s : RbacState) (u : PortalUser) (rn : String)
    (actor actor2 : Option Nat) (t1 t2 : Nat) :
    (∀ role pre a post,
        s.roles.find? (fun r => r.name == rn) = some role →
        s.assignments = pre ++ a :: post →
        activeRowPred u.id role.id a = true →
        pre.filter (activeRowPred u.id role.id) = [] →
        post.filter (activeRowPred u.id role.id) = [] →
        (revoke_role s u rn actor t1).fst = true ∧
        (revoke_role s u rn actor t1).snd.assignments
          = pre ++ { a with revoked_at := some t1 } :: post ∧
        (revoke_role (revoke_role s u rn actor t1).snd u rn actor2 t2).fst = false) ∧
    (∀ role, s.roles.find? (fun r => r.name == rn) = some role →
        activeRowsFor s.assignments u.id role.id = [] →
        revoke_role s u rn actor t1 = (false, s)) ∧
    (s.roles.find? (fun r => r.name == rn) = none →
        revoke_role s u rn actor t1 = (false, s)) := by
  refine ⟨?_, ?_, ?_⟩
  · intro role pre a post hf hsplit ha hpre hpost
    have hfilter : s.assignments.filter (activeRowPred u.id role.id) = [a] := by
      rw [hsplit, List.filter_append, hpre, List.filter_cons, ha, hpost]
      simp
    have hsnd : (revoke_role s u rn actor t1).snd.assignments
        = pre ++ { a with revoked_at := some t1 } :: post := by
      have hmap : s.assignments.map (fun x =>
          if activeRowPred u.id role.id x then { x with revoked_at := some t1 } else x)
            = pre ++ { a with revoked_at := some t1 } :: post := by
        rw [hsplit, List.map_append, List.map_cons]
        rw [map_if_id _ _ pre (filter_nil_all_false _ pre hpre)]
        rw [map_if_id _ _ post (filter_nil_all_false _ post hpost)]
        rw [if_pos ha]
      simp [revoke_role, hf, hfilter, hmap]
    have hroles : (revoke_role s u rn actor t1).snd.roles = s.roles := by
      simp [revoke_role, hf, hfilter]
    have hfst : (revoke_role s u rn actor t1).fst = true := by
      simp [revoke_role, hf, hfilter]
    refine ⟨hfst, hsnd, ?_⟩
    have hupd : activeRowPred u.id role.id { a with revoked_at := some t1 } = false := by
      simp [activeRowPred]
    have hfilter2 : ((revoke_role s u rn actor t1).snd.assignments).filter
        (activeRowPred u.id role.id) = [] := by
      rw [hsnd, List.filter_append, hpre, List.filter_cons, hupd, hpost]
      simp
    set s2 := (revoke_role s u rn actor t1).snd with hs2
    simp only [revoke_role, hroles, hf, hfilter2, List.length_nil]
    simp
  · intro role hf hnone
    unfold activeRowsFor at hnone
    simp [revoke_role, hf, hnone]
  · intro hf
    simp [revoke_role, hf]

/-- Witness for C3: revoking user 100's only active treasurer
assignment succeeds, stamps that row, and fails the second time. -/
theorem revoke_role_spec_witness :
    (revoke_role exRb exTreasurer "treasurer" (some 7) 30).fst = true ∧
    (revoke_role exRb exTreasurer "treasurer" (some 7) 30).snd.assignments
      = [] ++ { exRow0 with revoked_at := some 30 } :: [exRow1] ∧
    (revoke_role (revoke_role exRb exTreasurer "treasurer" (some 7) 30).snd exTreasurer
        "treasurer" (some 7) 31).fst = false :=
  (revoke_role_spec exRb exTreasurer "treasurer" (some 7) (some 7) 30 31).1
    { id := 5, name := "treasurer" } [] exRow0 [exRow1]
    (by decide) (by decide) (by decide) (by decide) (by decide)

/-! ## Claim C4: the permission matrix of has_permission -/

/-- C4: executive-tier role holders get every capability; chair role
holders get exactly the chair permission subset; every other (user,
capability) combination is denied.  Concretely, after granting
chair_social to user 10, manage_committee_budget is granted and
manage_master_budget is denied. -/
theorem has_permission_spec :
    (∀ s u p, has_any_role s u EXECUTIVE_ROLES = true → has_permission s u p = true) ∧
    (∀ s u p, CHAIR_PERMISSION_NAMES.contains p = true →
      has_any_role s u [ROLE_CHAIR_BROTHERHOOD, ROLE_CHAIR_SOCIAL, ROLE_CHAIR_RECRUITMENT]
        = true →
      has_permission s u p = true) ∧
    (∀ s u p, has_any_role s u EXECUTIVE_ROLES = false →
      (CHAIR_PERMISSION_NAMES.contains p = false ∨
        has_any_role s u [ROLE_CHAIR_BROTHERHOOD, ROLE_CHAIR_SOCIAL, ROLE_CHAIR_RECRUITMENT]
          = false) →
      has_permission s u p = false) ∧
    ((grant_role c4Rb exMember "chair_social" (some 6) 5).fst = true ∧
      has_permission (grant_role c4Rb exMember "chair_social" (some 6) 5).snd
        (some exMember) "manage_committee_budget" = true ∧
      has_permission (grant_role c4Rb exMember "chair_social" (some 6) 5).snd
        (some exMember) "manage_master_budget" = false) := by
  refine ⟨?_, ?_, ?_, ?_⟩
  · intro s u p h
    simp [has_permission, h]
  · intro s u p hp hr
    unfold has_permission
    cases hex : has_any_role s u EXECUTIVE_ROLES with
    | true => simp
    | false =>
      have hp2 : p ∈ CHAIR_PERMISSION_NAMES := by simpa using hp
      simp [hp2, hr]
  · intro s u p hex hd
    unfold has_permission
    rcases hd with hp | hchair
    · simp only [hex, Bool.false_eq_true, if_false, hp]
      cases hep : EXECUTIVE_PERMISSION_NAMES.contains p with
      | true =>
        simp only [if_true]
        rw [has_any_role_perm_exec]
        exact hex
      | false => simp
    · cases hp : CHAIR_PERMISSION_NAMES.contains p with
      | true => simp [hex, hp, hchair]
      | false =>
        simp only [hex, Bool.false_eq_true, if_false, hp]
        cases hep : EXECUTIVE_PERMISSION_NAMES.contains p with
        | true =>
          simp only [if_true]
          rw [has_any_role_perm_exec]
          exact hex
        | false => simp
  · refine ⟨by decide, by decide, by decide⟩

/-- Witness for C4: a treasurer (executive tier) is granted an
arbitrary capability name. -/
theorem has_permission_spec_witness :
    has_permission exRb (some exTreasurer) "export_bank_statements" = true :=
  has_permission_spec.1 exRb (some exTreasurer) "export_bank_statements" (by decide)

/-! ## Claim C6: committee remaining balance -/

/-- C6: the committee page's remaining balance is the most recent (by
allocated_at) allocation's cents plus the sum of the non-deleted
transaction amounts — older allocations are not summed — and 0 stands
in when no allocation exists; the spec's 2000 − 500 = 1500 example
holds on the example state. -/
theorem committee_remaining_spec :
    (∀ ps sid cid amax,
      amax ∈ allocationsFor ps sid cid →
      (∀ b ∈ allocationsFor ps sid cid, b = amax ∨ b.allocated_at < amax.allocated_at) →
      committeeRemainingCents ps sid cid
        = amax.allocated_cents
          + ((transactionsFor ps sid cid).map (fun t => t.amount_cents)).sum) ∧
    (∀ ps sid cid, allocationsFor ps sid cid = [] →
      committeeRemainingCents ps sid cid
        = ((transactionsFor ps sid cid).map (fun t => t.amount_cents)).sum) ∧
    committeeRemainingCents exPs "fall_2024" 1 = 1500 := by
  refine ⟨?_, ?_, by decide⟩
  · intro ps sid cid amax hmem hmax
    have hlat := latestByAllocatedAt_of_max (allocationsFor ps sid cid) amax hmem hmax
    simp [committeeRemainingCents, hlat]
  · intro ps sid cid h
    simp [committeeRemainingCents, h, latestByAllocatedAt]

/-- Witness for C6: the unique allocation of 2000 for (fall_2024,
committee 1) is the latest one, and the remaining balance is 2000 plus
the transaction sum. -/
theorem committee_remaining_spec_witness :
    committeeRemainingCents exPs "fall_2024" 1
      = (2000 : Int)
        + ((transactionsFor exPs "fall_2024" 1).map (fun t => t.amount_cents)).sum :=
  committee_remaining_spec.1 exPs "fall_2024" 1
    { id := 1, semester_id := "fall_2024", committee_id := 1, allocated_cents := 2000,
      allocated_at := 10 }
    (by decide) (by decide)

/-! ## Claim C9: committee transaction deletion authorization -/

/-- C9: deletion succeeds only for a user who can manage the
transaction's committee and is additionally an executive or the
creator; whenever either check fails the route aborts with 403 and the
state is unchanged. -/
theorem delete_committee_transaction_authz (rb : RbacState) (ps : PortalState)
    (u : PortalUser) (txId : Nat) (now : Nat) (tx : CommitteeTxRow) (crec : CommitteeRow)
    (htx : ps.committee_txs.find? (fun t => t.id == txId) = some tx)
    (hc : ps.committees.find? (fun c => c.id == tx.committee_id) = some crec) :
    ((delete_committee_transaction rb ps u txId now).fst = DeleteTxOutcome.deleted →
      can_manage_committee rb (some u) (pyLower crec.name) = true ∧
      (has_any_role rb (some u) EXECUTIVE_ROLES = true ∨ tx.created_by_user_id = u.id)) ∧
    ((can_manage_committee rb (some u) (pyLower crec.name) = false ∨
      (has_any_role rb (some u) EXECUTIVE_ROLES = false ∧ tx.created_by_user_id ≠ u.id)) →
      (delete_committee_transaction rb ps u txId now).fst = DeleteTxOutcome.forbidden ∧
      (delete_committee_transaction rb ps u txId now).snd = ps) := by
  constructor
  · intro hdel
    cases hcm : can_manage_committee rb (some u) (pyLower crec.name) with
    | false =>
      exfalso
      simp [delete_committee_transaction, htx, hc, hcm] at hdel
    | true =>
      refine ⟨rfl, ?_⟩
      cases h3 : has_any_role rb (some u)
          [ROLE_TREASURER, ROLE_VICE_PRESIDENT, ROLE_PRESIDENT] with
      | true => exact Or.inl (has_any_role_three_imp_exec _ _ h3)
      | false =>
        cases hcr : tx.created_by_user_id == u.id with
        | true => exact Or.inr (eq_of_beq hcr)
        | false =>
          exfalso
          simp [delete_committee_transaction, htx, hc, hcm, h3, hcr] at hdel
  · intro hcond
    rcases hcond with hcm | ⟨hex, hne⟩
    · constructor <;> simp [delete_committee_transaction, htx, hc, hcm]
    · have h3 : has_any_role rb (some u)
          [ROLE_TREASURER, ROLE_VICE_PRESIDENT, ROLE_PRESIDENT] = false := by
        cases h : has_any_role rb (some u)
            [ROLE_TREASURER, ROLE_VICE_PRESIDENT, ROLE_PRESIDENT] with
        | false => rfl
        | true => exact absurd (has_any_role_three_imp_exec _ _ h) (by simp [hex])
      have hcr : (tx.created_by_user_id == u.id) = false := beq_eq_false_iff_ne.mpr hne
      cases hcm : can_manage_committee rb (some u) (pyLower crec.name) with
      | false => constructor <;> simp [delete_committee_transaction, htx, hc, hcm]
      | true => constructor <;> simp [delete_committee_transaction, htx, hc, hcm, h3, hcr]

/-- Witness for C9: a plain brother who is not the creator cannot
delete transaction 7; the route forbids and the state is unchanged. -/
theorem delete_committee_transaction_authz_witness :
    (delete_committee_transaction exRb exPs exBrother 7 40).fst = DeleteTxOutcome.forbidden ∧
    (delete_committee_transaction exRb exPs exBrother 7 40).snd = exPs :=
  (delete_committee_transaction_authz exRb exPs exBrother 7 40 exTx exSocial
      (by decide) (by decide)).2
    (Or.inl (by decide))

/-! ## Claim C7: rollover flips the current semester -/

theorem filter_nil_of_all_false {α : Type} (p : α → Bool) :
    ∀ l : List α, (∀ x ∈ l, p x = false) → l.filter p = [] := by
  intro l
  induction l with
  | nil => intro _; rfl
  | cons a t ih =>
    intro h
    rw [List.filter_cons, h a (List.mem_cons_self a t)]
    simp only [Bool.false_eq_true, if_false]
    exact ih (fun x hx => h x (List.mem_cons_of_mem a hx))

/-- With at most one current semester, the filter of current semesters
is exactly the singleton found by get_current_semester. -/
theorem filter_current_single (sems : List SemesterRow) (cur : SemesterRow)
    (hfind : sems.find? (fun r => r.is_current) = some cur)
    (hlen : (sems.filter (fun r => r.is_current)).length ≤ 1) :
    sems.filter (fun r => r.is_current) = [cur] := by
  have hmem : cur ∈ sems.filter (fun r => r.is_current) :=
    List.mem_filter.mpr ⟨List.mem_of_find?_eq_some hfind, List.find?_some hfind⟩
  have hpos : 0 < (sems.filter (fun r => r.is_current)).length :=
    List.length_pos.mpr (List.ne_nil_of_mem hmem)
  have hlen1 : (sems.filter (fun r => r.is_current)).length = 1 := by omega
  obtain ⟨x, hx⟩ := List.length_eq_one.mp hlen1
  rw [hx] at hmem
  rw [hx, List.mem_singleton.mp hmem]

/-- After the rollover loop clears the found current semester, no
mapped row is current any more. -/
theorem flip_all_not_current (sems : List SemesterRow) (cur : SemesterRow)
    (hone : sems.filter (fun r => r.is_current) = [cur]) :
    ∀ r2 ∈ sems.map (fun r =>
        if r.id == cur.id then { r with is_current := false } else r),
      r2.is_current = false := by
  intro r2 hr2
  obtain ⟨r0, hr0mem, rfl⟩ := List.mem_map.mp hr2
  cases hid : r0.id == cur.id with
  | true => simp [hid]
  | false =>
    cases hc0 : r0.is_current with
    | false => simp [hid, hc0]
    | true =>
      exfalso
      have hin : r0 ∈ sems.filter (fun r => r.is_current) :=
        List.mem_filter.mpr ⟨hr0mem, hc0⟩
      rw [hone] at hin
      have he : r0 = cur := List.mem_singleton.mp hin
      rw [he, beq_self_eq_true] at hid
      cases hid

/-- C7: an authorized rollover with the matching "ROLL_OVER" token
completes; afterwards the new semester is the unique current one, every
row with the old current id is no longer current, and every event of
the old current semester is archived.  Moreover any rollover invocation
preserves the at-most-one-current invariant. -/
theorem semester_rollover_spec (rb : RbacState) (ps : PortalState) (u : PortalUser)
    (nm : Option String) (season : String) (year : Int) (now : Nat) (cur : SemesterRow)
    (hauth : has_any_role rb (some u) [ROLE_VICE_PRESIDENT, ROLE_PRESIDENT] = true)
    (hcur : get_current_semester ps = some cur)
    (hcount : currentCount ps ≤ 1)
    (hfresh : ∀ r ∈ ps.semesters, r.id ≠ newSemesterId season year) :
    (semester_rollover rb ps u (some "ROLL_OVER") nm season year now).fst
      = RolloverOutcome.completed ∧
    ((semester_rollover rb ps u (some "ROLL_OVER") nm season year now).snd.semesters.filter
        (fun r => r.is_current)).map (fun r => r.id) = [newSemesterId season year] ∧
    (∀ r ∈ (semester_rollover rb ps u (some "ROLL_OVER") nm season year now).snd.semesters,
        r.id = cur.id → r.is_current = false) ∧
    (∀ e ∈ (semester_rollover rb ps u (some "ROLL_OVER") nm season year now).snd.events,
        e.semester_id = cur.id → e.is_archived = true) ∧
    (∀ rb2 ps2 u2 c2 nm2 se2 y2 t2, currentCount ps2 ≤ 1 →
        currentCount (semester_rollover rb2 ps2 u2 c2 nm2 se2 y2 t2).snd ≤ 1) := by
  have hone : ps.semesters.filter (fun r => r.is_current) = [cur] :=
    filter_current_single ps.semesters cur hcur hcount
  have hallf := flip_all_not_current ps.semesters cur hone
  have hsem : (semester_rollover rb ps u (some "ROLL_OVER") nm season year now).snd.semesters
      = ps.semesters.map (fun r =>
          if r.id == cur.id then { r with is_current := false } else r)
        ++ [{ id := newSemesterId season year, name := nm, year := year, season := season,
              is_current := true }] := by
    simp [semester_rollover, hauth, hcur]
  have hev : (semester_rollover rb ps u (some "ROLL_OVER") nm season year now).snd.events
      = ps.events.map (fun e =>
          if e.semester_id == cur.id then { e with is_archived := true } else e) := by
    simp [semester_rollover, hauth, hcur]
  refine ⟨by simp [semester_rollover, hauth, hcur], ?_, ?_, ?_, ?_⟩
  · rw [hsem, List.filter_append, filter_nil_of_all_false _ _ hallf]
    simp
  · intro r hr hid
    rw [hsem] at hr
    rcases List.mem_append.mp hr with hr | hr
    · exact hallf r hr
    · have he := List.mem_singleton.mp hr
      exfalso
      rw [he] at hid
      exact hfresh cur (List.mem_of_find?_eq_some hcur) hid.symm
  · intro e he hsemid
    rw [hev] at he
    obtain ⟨e0, he0, rfl⟩ := List.mem_map.mp he
    cases hid : e0.semester_id == cur.id with
    | true => simp [hid]
    | false =>
      exfalso
      simp only [hid, Bool.false_eq_true, if_false] at hsemid
      rw [hsemid, beq_self_eq_true] at hid
      cases hid
  · intro rb2 ps2 u2 c2 nm2 se2 y2 t2 hle
    cases hau2 : has_any_role rb2 (some u2) [ROLE_VICE_PRESIDENT, ROLE_PRESIDENT] with
    | false =>
      have hid2 : (semester_rollover rb2 ps2 u2 c2 nm2 se2 y2 t2).snd = ps2 := by
        simp [semester_rollover, hau2]
      rw [hid2]; exact hle
    | true =>
      cases hc2 : c2 == some "ROLL_OVER" with
      | false =>
        have hid2 : (semester_rollover rb2 ps2 u2 c2 nm2 se2 y2 t2).snd = ps2 := by
          simp [semester_rollover, hau2, hc2]
        rw [hid2]; exact hle
      | true =>
        cases hcur2 : get_current_semester ps2 with
        | none =>
          have hnonecur : ∀ x ∈ ps2.semesters, (fun r : SemesterRow => r.is_current) x = false := by
            intro x hx
            have := List.find?_eq_none.mp hcur2 x hx
            simpa using this
          have hfe : ps2.semesters.filter (fun r => r.is_current) = [] :=
            filter_nil_of_all_false _ _ hnonecur
          have hsem2 : (semester_rollover rb2 ps2 u2 c2 nm2 se2 y2 t2).snd.semesters
              = ps2.semesters
                ++ [{ id := newSemesterId se2 y2, name := nm2, year := y2, season := se2,
                      is_current := true }] := by
            simp [semester_rollover, hau2, hc2, hcur2]
          rw [currentCount, hsem2, List.filter_append, hfe]
          simp
        | some cur2 =>
          have hone2 : ps2.semesters.filter (fun r => r.is_current) = [cur2] :=
            filter_current_single ps2.semesters cur2 hcur2 hle
          have hallf2 := flip_all_not_current ps2.semesters cur2 hone2
          have hfe2 := filter_nil_of_all_false _ _ hallf2
          have hsem2 : (semester_rollover rb2 ps2 u2 c2 nm2 se2 y2 t2).snd.semesters
              = ps2.semesters.map (fun r =>
                  if r.id == cur2.id then { r with is_current := false } else r)
                ++ [{ id := newSemesterId se2 y2, name := nm2, year := y2, season := se2,
                      is_current := true }] := by
            simp [semester_rollover, hau2, hc2, hcur2]
          rw [currentCount, hsem2, List.filter_append, hfe2]
          simp

/-- Witness for C7: rolling fall_2024 over to spring_2025 in the
example state completes, spring_2025 is the unique current semester,
fall_2024 is no longer current and its event is archived. -/
theorem semester_rollover_spec_witness :
    (semester_rollover exVpRb exPs exVp (some "ROLL_OVER") (some "Spring 2025") "Spring"
        2025 90).fst = RolloverOutcome.completed ∧
    ((semester_rollover exVpRb exPs exVp (some "ROLL_OVER") (some "Spring 2025") "Spring"
        2025 90).snd.semesters.filter (fun r => r.is_current)).map (fun r => r.id)
      = [newSemesterId "Spring" 2025] ∧
    (∀ r ∈ (semester_rollover exVpRb exPs exVp (some "ROLL_OVER") (some "Spring 2025")
        "Spring" 2025 90).snd.semesters, r.id = exSemester.id → r.is_current = false) ∧
    (∀ e ∈ (semester_rollover exVpRb exPs exVp (some "ROLL_OVER") (some "Spring 2025")
        "Spring" 2025 90).snd.events, e.semester_id = exSemester.id → e.is_archived = true) ∧
    (∀ rb2 ps2 u2 c2 nm2 se2 y2 t2, currentCount ps2 ≤ 1 →
        currentCount (semester_rollover rb2 ps2 u2 c2 nm2 se2 y2 t2).snd ≤ 1) :=
  semester_rollover_spec exVpRb exPs exVp (some "Spring 2025") "Spring" 2025 90 exSemester
    (by decide) (by decide) (by decide) (by decide)

end FratPortal
